import Mathlib

/-!
Shallow embedding of the MomentumTrader decision engine
(`momentum_trader/Logic/trading_bot.py`, `momentum_trader/Logic/wallet.py`,
`momentum_trader/config.py`).  Python floats are modelled as exact rationals
(`ℚ`); the one place the source takes a square root (`np.std`) is modelled in
`ℝ`.  Timestamps are rationals measured in minutes, so the `timedelta(minutes=w)` arithmetic of the source becomes plain subtraction.
-/

/-- `TradingConfig` from `config.py` (the fields the decision engine reads). -/
structure TradingConfig where
  price_movement_threshold : ℚ
  price_resolution_minutes : ℚ
  momentum_lookback_window_minutes : ℚ
  momentum_std_threshold : ℚ
  order_size_factor : ℚ
  max_order_size_multiplier : ℚ
  maker_fee_rate : ℚ
  taker_fee_rate : ℚ
  price_validation_threshold : ℚ
  price_adjustment_offset : ℚ

/-- Derived property `momentum_history_window_minutes = 2 * lookback`. -/
def TradingConfig.momentum_history_window_minutes (c : TradingConfig) : ℚ :=
  2 * c.momentum_lookback_window_minutes

/-- `DEFAULT_TRADING_CONFIG` from `config.py`. -/
def DEFAULT_TRADING_CONFIG : TradingConfig :=
  { price_movement_threshold := 1/100
    price_resolution_minutes := 1
    momentum_lookback_window_minutes := 30
    momentum_std_threshold := 1
    order_size_factor := 65
    max_order_size_multiplier := 6
    maker_fee_rate := 8/10000
    taker_fee_rate := 1/1000
    price_validation_threshold := 6/5
    price_adjustment_offset := 1/1000 }

/-- `OrderType` from `wallet.py`. -/
inductive OrderType where
  | MAKER
  | TAKER
deriving DecidableEq

/-- The state of `WalletManager` (`wallet.py`): balances and the commission
rates.  Logging fields and the order logger are omitted; the executed-order
dictionary is modelled for `update_executed_order` as an association list from
order id to the recorded balances. -/
structure WalletManager where
  current_btc : ℚ
  current_usdt : ℚ
  commission_rate_maker : ℚ
  commission_rate_taker : ℚ
  order_type : OrderType
  commission_rate : ℚ
  executed_orders : List (Int × ℚ × ℚ)
deriving DecidableEq

/-- `WalletManager.__init__`: note the source line
`self.commission_rate = self.commission_rate_taker`, which does not consult
`order_type`. -/
def WalletManager.init (initial_btc initial_usdt commission_rate_maker
    commission_rate_taker : ℚ) (order_type : OrderType) : WalletManager :=
  { current_btc := initial_btc
    current_usdt := initial_usdt
    commission_rate_maker := commission_rate_maker
    commission_rate_taker := commission_rate_taker
    order_type := order_type
    commission_rate := commission_rate_taker
    executed_orders := [] }

/-- `WalletManager._check_buy_order`. -/
def WalletManager.check_buy_order (w : WalletManager) (price size_btc : ℚ) : Bool :=
  !decide (w.current_usdt < size_btc * price * (1 + w.commission_rate))

/-- `WalletManager._check_sell_order` (the source does not use the price argument in the balance test). -/
def WalletManager.check_sell_order (w : WalletManager) (size_btc : ℚ) : Bool :=
  !decide (w.current_btc < size_btc * (1 + w.commission_rate))

/-- `WalletManager.check_order_size`; the source calls `exit` on an invalid
side, modelled as `none`. -/
def WalletManager.check_order_size (w : WalletManager) (price size_btc : ℚ)
    (side : String) : Option ℚ :=
  if side = "buy" then
    if w.check_buy_order price size_btc then some size_btc else some 0
  else if side = "sell" then
    if w.check_sell_order size_btc then some size_btc else some 0
  else
    none

/-- `WalletManager.update_executed_order`: records the execution entry and
overwrites the local balances wholesale with the authoritative account
balances. -/
def WalletManager.update_executed_order (w : WalletManager) (order_id : Int)
    (account_btc_size account_usdt_size : ℚ) : WalletManager :=
  { w with
    executed_orders := (order_id, account_btc_size, account_usdt_size) :: w.executed_orders
    current_btc := account_btc_size
    current_usdt := account_usdt_size }

/-- The per-side base order sizes `buy_size_btc` / `sell_size_btc` of
`TradingBot`. -/
structure SizeState where
  buy_size_btc : ℚ
  sell_size_btc : ℚ
deriving DecidableEq

/-- `TradingBot._adjust_order_sizes`: the filled side doubles, capped at
`max_order_size_multiplier * order_start_size`; the other side resets to
`order_start_size`. -/
def adjust_order_sizes (max_order_size_multiplier order_start_size : ℚ)
    (s : SizeState) (executed_side : String) : SizeState :=
  if executed_side = "buy" then
    { buy_size_btc :=
        min (max_order_size_multiplier * order_start_size) (s.buy_size_btc + s.buy_size_btc)
      sell_size_btc := order_start_size }
  else if executed_side = "sell" then
    { sell_size_btc :=
        min (max_order_size_multiplier * order_start_size) (s.sell_size_btc + s.sell_size_btc)
      buy_size_btc := order_start_size }
  else
    s

/-- The Python call `round(x, 2)` used in `_set_new_orders`, modelled as rounding
`x` to the nearest multiple of `1/100` (the float `round` of the source breaks
half-cent ties to even; no claim here touches an exact half-cent tie). -/
def round2 (x : ℚ) : ℚ := (round (x * 100) : ℤ) / 100

/-- The expected prices computed by `TradingBot._set_new_orders`.  The source
computes `max(self.expected_sell_price, little_below_current_price)` but stores
it into `self.expected_sell_size`, which the next statement overwrites with the
size check of the wallet, so the sell price is left unclamped; the buy price is
clamped by `min` as written. -/
structure NewOrderPrices where
  expected_sell_price : ℚ
  expected_buy_price : ℚ
deriving DecidableEq

/-- The price computations of `TradingBot._set_new_orders` (lines 241-270). -/
def set_new_order_prices (cfg : TradingConfig) (last_price current_price : ℚ) :
    NewOrderPrices :=
  let expected_sell_price := round2 (last_price * (1 + cfg.price_movement_threshold))
  let little_above_current_price := round2 (current_price * (1 + cfg.price_adjustment_offset))
  let expected_buy_price := round2 (last_price * (1 - cfg.price_movement_threshold))
  { expected_sell_price := expected_sell_price
    expected_buy_price := min expected_buy_price little_above_current_price }

/-- The clamp value `little_below_current_price` the sell side computes (and
then loses to the `expected_sell_size` slip). -/
def little_below_current_price (cfg : TradingConfig) (current_price : ℚ) : ℚ :=
  round2 (current_price * (1 - cfg.price_adjustment_offset))

/-- `RuntimeParams`: the five durable fields written by
`_save_runtime_params` and restored by `_on_start`. -/
structure RuntimeParams where
  last_price : ℚ
  buy_size_btc : ℚ
  sell_size_btc : ℚ
  buy_order_id : Int
  sell_order_id : Int
deriving DecidableEq

/-- The persisted record: a keyed JSON object in which each of the five keys
may be present or absent. -/
structure ParamsFile where
  last_price : Option ℚ
  buy_size_btc : Option ℚ
  sell_size_btc : Option ℚ
  buy_order_id : Option Int
  sell_order_id : Option Int
deriving DecidableEq

/-- `TradingBot._save_runtime_params`: writes all five fields. -/
def save_runtime_params (p : RuntimeParams) : ParamsFile :=
  { last_price := some p.last_price
    buy_size_btc := some p.buy_size_btc
    sell_size_btc := some p.sell_size_btc
    buy_order_id := some p.buy_order_id
    sell_order_id := some p.sell_order_id }

/-- `TradingBot._on_start`: `file = none` models a missing parameters file;
`live_price` is the result of `exchange_client.get_price` (`none` models a
failed query, which the `or 0.0` of the source turns into `0`). -/
def on_start (file : Option ParamsFile) (live_price : Option ℚ)
    (default_buy_size_btc default_sell_size_btc : ℚ) : RuntimeParams :=
  match file with
  | some f =>
      { last_price :=
          match f.last_price with
          | some lp => lp
          | none => live_price.getD 0
        buy_size_btc := f.buy_size_btc.getD default_buy_size_btc
        sell_size_btc := f.sell_size_btc.getD default_sell_size_btc
        buy_order_id := f.buy_order_id.getD 0
        sell_order_id := f.sell_order_id.getD 0 }
  | none =>
      { last_price := live_price.getD 0
        buy_size_btc := default_buy_size_btc
        sell_size_btc := default_sell_size_btc
        buy_order_id := 0
        sell_order_id := 0 }

/-- `NOT_ENOUGH_BALANCE` sentinel order id from `trading_bot.py`. -/
def NOT_ENOUGH_BALANCE : Int := -55

/-- `TradingBot.OrderStatus`. -/
inductive OrderStatus where
  | FILLED
  | WAITING
  | CANCELED
  | NOT_ENOUGH_BALANCE
deriving DecidableEq

/-- `TradingBot.OrderExecutionResult`. -/
structure OrderExecutionResult where
  order_status : OrderStatus
  executed_order_id : Int
  executed_price : ℚ
  executed_size : ℚ
  executed_side : String
  fill_time_ms : String
deriving DecidableEq

/-- The sentinel fill time `_check_order_status` initialises `fill_time_ms`
with. -/
def sentinel_fill_time : String := "2111-01-01 00:00:00 UTC"

/-- The answer of the gateway to `exchange_client.check_order_status`. -/
structure GatewayOrderStatus where
  state : String
  price : ℚ
  size : ℚ
  fee : ℚ

/-- The mutable `TradingBot` fields the reconcile/decide phase touches,
plus the log (most recent first) of records written by
`_save_runtime_params`. -/
structure BotState where
  last_price : ℚ
  buy_size_btc : ℚ
  sell_size_btc : ℚ
  buy_order_id : Int
  sell_order_id : Int
  saved_params : List ParamsFile

/-- The five durable fields of a `BotState`. -/
def runtime_params_of (s : BotState) : RuntimeParams :=
  { last_price := s.last_price
    buy_size_btc := s.buy_size_btc
    sell_size_btc := s.sell_size_btc
    buy_order_id := s.buy_order_id
    sell_order_id := s.sell_order_id }

/-- `TradingBot._check_order_status` as a state transformer.  `gw` is the
status answer of the gateway (consulted only when the stored id is neither the
sentinel nor `0`); `details` is the optional
`(order_type, fee_rate, fill_time)` triple of `get_order_fill_details`, of which only the fill time feeds
the returned result.  On a fill the source updates the wallet from a fresh
balance query (irrelevant to these fields) and calls `_save_runtime_params`,
which the model records by prepending to `saved_params`. -/
def bot_check_order_status (s : BotState) (order_id : Int) (side : String)
    (gw : GatewayOrderStatus) (details : Option (String × String × String)) :
    BotState × OrderExecutionResult :=
  if order_id = NOT_ENOUGH_BALANCE then
    (s, { order_status := OrderStatus.NOT_ENOUGH_BALANCE
          executed_order_id := order_id
          executed_price := 0
          executed_size := 0
          executed_side := ""
          fill_time_ms := sentinel_fill_time })
  else if order_id = 0 then
    (s, { order_status := OrderStatus.CANCELED
          executed_order_id := 0
          executed_price := 0
          executed_size := 0
          executed_side := ""
          fill_time_ms := sentinel_fill_time })
  else
    let filled := gw.state = "filled" ∨ gw.state = "partially_filled"
    let canceled := gw.state = "canceled" ∨ gw.state = "failed"
    let order_status :=
      if filled then OrderStatus.FILLED
      else if canceled then OrderStatus.CANCELED
      else OrderStatus.WAITING
    let executed_order_id := if filled then order_id else 0
    let executed_price := if filled then gw.price else 0
    let executed_size := if filled then gw.size else 0
    let fill_time_ms :=
      if filled then
        match details with
        | some (_, _, ft) => ft
        | none => sentinel_fill_time
      else sentinel_fill_time
    let s' :=
      if order_status = OrderStatus.FILLED ∧ executed_order_id ≠ 0 then
        { s with saved_params := save_runtime_params (runtime_params_of s) :: s.saved_params }
      else s
    (s', { order_status := order_status
           executed_order_id := executed_order_id
           executed_price := executed_price
           executed_size := executed_size
           executed_side := side
           fill_time_ms := fill_time_ms })

/-- `order_status in {FILLED, CANCELED}` from `_trade_logic`. -/
def order_executed (r : OrderExecutionResult) : Bool :=
  r.order_status == OrderStatus.FILLED || r.order_status == OrderStatus.CANCELED

/-- The `orders` list built in `_trade_logic` (lines 194-201): the buy result
when executed, and the sell result when executed, inserted in front exactly
when its `fill_time_ms` string compares lexicographically below that of the
buy result. -/
def collect_orders (buy_result sell_result : OrderExecutionResult) :
    List OrderExecutionResult :=
  let orders := if order_executed buy_result then [buy_result] else []
  if order_executed sell_result then
    if sell_result.fill_time_ms < buy_result.fill_time_ms then
      sell_result :: orders
    else
      orders ++ [sell_result]
  else orders

/-- The fill-application loop of `_trade_logic` (lines 203-206): for each
collected order with a nonzero executed id, adjust the sizes for its side and
set `last_price` to its executed price. -/
def apply_fill_updates (max_order_size_multiplier order_start_size : ℚ)
    (s : BotState) (orders : List OrderExecutionResult) : BotState :=
  orders.foldl
    (fun st o =>
      if o.executed_order_id ≠ 0 then
        let sz := adjust_order_sizes max_order_size_multiplier order_start_size
          { buy_size_btc := st.buy_size_btc, sell_size_btc := st.sell_size_btc }
          o.executed_side
        { st with
          buy_size_btc := sz.buy_size_btc
          sell_size_btc := sz.sell_size_btc
          last_price := o.executed_price }
      else st)
    s

/-- The order-maintenance outcome of `_trade_logic` lines 208-214: whether the
cycle closes all resting orders, and whether it places a fresh pair. -/
structure TradeDecision where
  closed_orders : Bool
  placed_new_pair : Bool
deriving DecidableEq

/-- `_trade_logic` lines 208-214: if either side executed, close all orders
and, unless momentum is extreme, place a fresh pair; otherwise close orders
exactly when momentum is extreme. -/
def trade_decision (buy_result sell_result : OrderExecutionResult)
    (is_extreme : Bool) : TradeDecision :=
  if order_executed buy_result || order_executed sell_result then
    { closed_orders := true, placed_new_pair := !is_extreme }
  else if is_extreme then
    { closed_orders := true, placed_new_pair := false }
  else
    { closed_orders := false, placed_new_pair := false }

/-- The reconcile phase of one `_trade_logic` cycle: check the buy side, then
the sell side, threading the bot state (so a save during the buy check is
visible when the sell side saves). -/
def reconcile_orders (s : BotState) (gwB gwS : GatewayOrderStatus)
    (dB dS : Option (String × String × String)) :
    BotState × OrderExecutionResult × OrderExecutionResult :=
  let r1 := bot_check_order_status s s.buy_order_id "buy" gwB dB
  let r2 := bot_check_order_status r1.1 r1.1.sell_order_id "sell" gwS dS
  (r2.1, r1.2, r2.2)

/-- `self.price_history` filtered to the half-open lookback window
`[current_timestamp - lookback, current_timestamp)`, as in
`_calculate_current_momentum`.  A history point is a `(timestamp, price)`
pair. -/
def recent_price_data (cfg : TradingConfig) (price_history : List (ℚ × ℚ))
    (current_timestamp : ℚ) : List (ℚ × ℚ) :=
  price_history.filter
    (fun p => decide (current_timestamp - cfg.momentum_lookback_window_minutes ≤ p.1 ∧
      p.1 < current_timestamp))

/-- `TradingBot._calculate_current_momentum`. -/
def calculate_current_momentum (cfg : TradingConfig) (price_history : List (ℚ × ℚ))
    (current_price current_timestamp : ℚ) : ℚ :=
  if price_history = [] then 0
  else
    match recent_price_data cfg price_history current_timestamp with
    | [] => 0
    | (start_time, start_price) :: _ =>
      let time_diff := current_timestamp - start_time
      if 0 < time_diff then
        ((current_price - start_price) / start_price * 100) / time_diff
      else 0

/-- `np.mean` of a list of rationals. -/
def listMean (l : List ℚ) : ℚ := l.sum / l.length

/-- The population variance underlying `np.std`. -/
def listPopVar (l : List ℚ) : ℚ :=
  (l.map (fun x => (x - listMean l) ^ 2)).sum / l.length

/-- `np.std`: the square root of the population variance, in `ℝ`. -/
noncomputable def np_std (l : List ℚ) : ℝ := Real.sqrt ((listPopVar l : ℚ) : ℝ)

/-- `recent_momentum_list` of `_is_extreme_momentum`: momentum history points
with `timestamp >= current_timestamp - momentum_history_window`, with the
candidate momentum appended.  A history point is a `(timestamp, momentum)`
pair. -/
def gather_recent_momentum (cfg : TradingConfig) (momentum_history : List (ℚ × ℚ))
    (current_momentum current_timestamp : ℚ) : List ℚ :=
  ((momentum_history.filter
      (fun m => decide (current_timestamp - cfg.momentum_history_window_minutes ≤ m.1))).map
    (fun m => m.2)) ++ [current_momentum]

/-- `high_threshold` of `_is_extreme_momentum`: `mean + k·std` when the
standard deviation is positive, the fixed `mean + 0.01` band otherwise. -/
noncomputable def extreme_high_threshold (cfg : TradingConfig)
    (momentum_history : List (ℚ × ℚ)) (current_momentum current_timestamp : ℚ) : ℝ :=
  let l := gather_recent_momentum cfg momentum_history current_momentum current_timestamp
  if np_std l > 0 then
    (listMean l : ℝ) + (cfg.momentum_std_threshold : ℝ) * np_std l
  else
    (listMean l : ℝ) + 1/100

/-- `low_threshold` of `_is_extreme_momentum`. -/
noncomputable def extreme_low_threshold (cfg : TradingConfig)
    (momentum_history : List (ℚ × ℚ)) (current_momentum current_timestamp : ℚ) : ℝ :=
  let l := gather_recent_momentum cfg momentum_history current_momentum current_timestamp
  if np_std l > 0 then
    (listMean l : ℝ) - (cfg.momentum_std_threshold : ℝ) * np_std l
  else
    (listMean l : ℝ) - 1/100

/-- `TradingBot._is_extreme_momentum`. -/
noncomputable def is_extreme_momentum (cfg : TradingConfig)
    (momentum_history : List (ℚ × ℚ)) (current_momentum current_timestamp : ℚ) : Prop :=
  if ((gather_recent_momentum cfg momentum_history current_momentum current_timestamp).length : ℚ) <
      cfg.momentum_history_window_minutes / cfg.price_resolution_minutes - 1 then
    False
  else
    (current_momentum : ℝ) > extreme_high_threshold cfg momentum_history current_momentum current_timestamp ∨
    (current_momentum : ℝ) < extreme_low_threshold cfg momentum_history current_momentum current_timestamp

/-- C1: a buy fill doubles the buy-side base size capped at
`max_order_size_multiplier * order_start_size` and resets the sell side to
`order_start_size`; a sell fill is symmetric; hence after any nonempty
sequence of fills the base size of neither side exceeds the cap. -/
theorem adjust_order_sizes_doubles_caps_and_resets
    (max_mult start : ℚ) (s : SizeState) (fills : List String)
    (hcap : start ≤ max_mult * start) (hne : fills ≠ [])
    (hsides : ∀ f ∈ fills, f = "buy" ∨ f = "sell") :
    adjust_order_sizes max_mult start s "buy" =
      { buy_size_btc := min (max_mult * start) (s.buy_size_btc + s.buy_size_btc)
        sell_size_btc := start } ∧
    adjust_order_sizes max_mult start s "sell" =
      { buy_size_btc := start
        sell_size_btc := min (max_mult * start) (s.sell_size_btc + s.sell_size_btc) } ∧
    (fills.foldl (adjust_order_sizes max_mult start) s).buy_size_btc ≤ max_mult * start ∧
    (fills.foldl (adjust_order_sizes max_mult start) s).sell_size_btc ≤ max_mult * start := by
  refine ⟨by simp [adjust_order_sizes], by simp [adjust_order_sizes], ?_⟩
  rcases List.eq_nil_or_concat fills with h | ⟨l, f, h⟩
  · exact absurd h hne
  · subst h
    have hf : f = "buy" ∨ f = "sell" := hsides f (by simp)
    rw [List.concat_eq_append, List.foldl_append]
    rcases hf with hf | hf <;> subst hf <;>
      simp [adjust_order_sizes, hcap, min_le_left]

/-- Witness for C1 at `max_mult = 6`, `start = 1`, three fills. -/
theorem adjust_order_sizes_doubles_caps_and_resets_witness :
    (1 : ℚ) ≤ 6 * 1 ∧
    (["buy", "buy", "sell"].foldl (adjust_order_sizes 6 1)
      { buy_size_btc := 1, sell_size_btc := 1 }).buy_size_btc ≤ 6 * 1 ∧
    (["buy", "buy", "sell"].foldl (adjust_order_sizes 6 1)
      { buy_size_btc := 1, sell_size_btc := 1 }).sell_size_btc ≤ 6 * 1 :=
  ⟨by norm_num,
   (adjust_order_sizes_doubles_caps_and_resets 6 1
     { buy_size_btc := 1, sell_size_btc := 1 } ["buy", "buy", "sell"]
     (by norm_num) (by simp) (by decide)).2.2.1,
   (adjust_order_sizes_doubles_caps_and_resets 6 1
     { buy_size_btc := 1, sell_size_btc := 1 } ["buy", "buy", "sell"]
     (by norm_num) (by simp) (by decide)).2.2.2⟩

/-- C3: `check_order_size` for a buy returns `0` exactly when
`quote_balance < size·price·(1+commission_rate)` and otherwise returns the
requested size unchanged; for a sell it returns `0` exactly when
`base_balance < size·(1+commission_rate)` and otherwise the requested size
(the nonzero-size hypothesis rules out the degenerate requested size `0`,
where "returns 0" and "returns the requested size" coincide). -/
theorem check_order_size_exact (w : WalletManager) (price size_btc : ℚ)
    (hs : size_btc ≠ 0) :
    (w.check_order_size price size_btc "buy" = some 0 ↔
      w.current_usdt < size_btc * price * (1 + w.commission_rate)) ∧
    (¬ w.current_usdt < size_btc * price * (1 + w.commission_rate) →
      w.check_order_size price size_btc "buy" = some size_btc) ∧
    (w.check_order_size price size_btc "sell" = some 0 ↔
      w.current_btc < size_btc * (1 + w.commission_rate)) ∧
    (¬ w.current_btc < size_btc * (1 + w.commission_rate) →
      w.check_order_size price size_btc "sell" = some size_btc) := by
  unfold WalletManager.check_order_size WalletManager.check_buy_order
    WalletManager.check_sell_order
  by_cases h1 : w.current_usdt < size_btc * price * (1 + w.commission_rate) <;>
    by_cases h2 : w.current_btc < size_btc * (1 + w.commission_rate) <;>
      simp [h1, h2, hs]

/-- Witness for C3: a wallet with 50 USDT and 1 BTC, buy of size 2 at price
30 (cost 60.06 rejected), sell of size 2 (cost 2.002 within balance... the
sell balance 1 is below 2.002, so both checks are exercised). -/
theorem check_order_size_exact_witness :
    (2 : ℚ) ≠ 0 ∧
    ((WalletManager.init 1 50 (8/10000) (1/1000) OrderType.MAKER).check_order_size
        30 2 "buy" = some 0 ↔
      (WalletManager.init 1 50 (8/10000) (1/1000) OrderType.MAKER).current_usdt <
        2 * 30 * (1 + (WalletManager.init 1 50 (8/10000) (1/1000) OrderType.MAKER).commission_rate)) :=
  ⟨by norm_num,
   (check_order_size_exact (WalletManager.init 1 50 (8/10000) (1/1000) OrderType.MAKER)
     30 2 (by norm_num)).1⟩

/-- C4: saving then loading `RuntimeParams` restores all five fields, and
loading a record from which only `last_price` is missing restores the live
price into `last_price` and every other field unchanged. -/
theorem runtime_params_roundtrip (p : RuntimeParams) (live : Option ℚ)
    (lp default_buy default_sell : ℚ) :
    on_start (some (save_runtime_params p)) live default_buy default_sell = p ∧
    on_start (some { save_runtime_params p with last_price := none })
        (some lp) default_buy default_sell =
      { p with last_price := lp } := by
  cases p
  exact ⟨rfl, rfl⟩

/-- C2 (failing input): with the default config, `last_price = 100` and
`current_price = 200`, `_set_new_orders` leaves the sell price at `101`,
strictly below `current_price * (1 - price_adjustment_offset) = 199.8`; the
clamp value `little_below_current_price` is computed but lost to the
`expected_sell_size` assignment slip. -/
theorem sell_price_unclamped_at_failing_input :
    (set_new_order_prices DEFAULT_TRADING_CONFIG 100 200).expected_sell_price = 101 ∧
    little_below_current_price DEFAULT_TRADING_CONFIG 200 = 999/5 ∧
    (set_new_order_prices DEFAULT_TRADING_CONFIG 100 200).expected_sell_price <
      200 * (1 - DEFAULT_TRADING_CONFIG.price_adjustment_offset) := by
  refine ⟨?_, ?_, ?_⟩ <;>
    norm_num [set_new_order_prices, little_below_current_price, round2,
      DEFAULT_TRADING_CONFIG, round_eq]

/-- C5: when both sides report a FILLED result with nonzero executed ids in
the same cycle, the fill whose reported `fill_time_ms` string compares first
is applied first, and after both updates `last_price` equals the executed
price of the fill applied last (the one whose reported fill time is not
earlier). -/
theorem fills_applied_in_fill_time_order
    (buy_result sell_result : OrderExecutionResult)
    (max_mult start : ℚ) (s : BotState)
    (hb : buy_result.order_status = OrderStatus.FILLED)
    (hs : sell_result.order_status = OrderStatus.FILLED)
    (hbid : buy_result.executed_order_id ≠ 0)
    (hsid : sell_result.executed_order_id ≠ 0) :
    (sell_result.fill_time_ms < buy_result.fill_time_ms →
      collect_orders buy_result sell_result = [sell_result, buy_result] ∧
      (apply_fill_updates max_mult start s
        (collect_orders buy_result sell_result)).last_price =
          buy_result.executed_price) ∧
    (¬ sell_result.fill_time_ms < buy_result.fill_time_ms →
      collect_orders buy_result sell_result = [buy_result, sell_result] ∧
      (apply_fill_updates max_mult start s
        (collect_orders buy_result sell_result)).last_price =
          sell_result.executed_price) := by
  constructor <;> intro hlt <;>
    refine ⟨by simp [collect_orders, order_executed, hb, hs, hlt], ?_⟩ <;>
    simp [collect_orders, order_executed, hb, hs, hlt, apply_fill_updates, hbid, hsid]

/-- Witness for C5: a sell filled at `09:00:01` and a buy filled at
`09:00:02`; the sell is applied first and `last_price` ends at the executed
price of the buy. -/
theorem fills_applied_in_fill_time_order_witness :
    ("2025-03-01 09:00:01 UTC" : String) < "2025-03-01 09:00:02 UTC" ∧
    (apply_fill_updates 6 1
      { last_price := 50, buy_size_btc := 1, sell_size_btc := 1,
        buy_order_id := 7, sell_order_id := 9, saved_params := [] }
      (collect_orders
        { order_status := OrderStatus.FILLED, executed_order_id := 7,
          executed_price := 101, executed_size := 1, executed_side := "buy",
          fill_time_ms := "2025-03-01 09:00:02 UTC" }
        { order_status := OrderStatus.FILLED, executed_order_id := 9,
          executed_price := 99, executed_size := 1, executed_side := "sell",
          fill_time_ms := "2025-03-01 09:00:01 UTC" })).last_price = 101 :=
  ⟨by rw [String.lt_iff_toList_lt]; decide,
   ((fills_applied_in_fill_time_order
      { order_status := OrderStatus.FILLED, executed_order_id := 7,
        executed_price := 101, executed_size := 1, executed_side := "buy",
        fill_time_ms := "2025-03-01 09:00:02 UTC" }
      { order_status := OrderStatus.FILLED, executed_order_id := 9,
        executed_price := 99, executed_size := 1, executed_side := "sell",
        fill_time_ms := "2025-03-01 09:00:01 UTC" }
      6 1
      { last_price := 50, buy_size_btc := 1, sell_size_btc := 1,
        buy_order_id := 7, sell_order_id := 9, saved_params := [] }
      rfl rfl (by decide) (by decide)).1
        (by rw [String.lt_iff_toList_lt]; decide)).2⟩

/-- C6: when the population standard deviation of the gathered momentum set is
exactly zero (and the warm-up length guard passes), the thresholds fall back
to `mean ± 0.01` and the candidate is extreme exactly when it lies strictly
outside that band; an all-equal gathered set has zero variance and its mean
equal to the common value. -/
theorem is_extreme_momentum_zero_std
    (cfg : TradingConfig) (momentum_history : List (ℚ × ℚ)) (c t : ℚ)
    (hlen : ¬ ((gather_recent_momentum cfg momentum_history c t).length : ℚ) <
      cfg.momentum_history_window_minutes / cfg.price_resolution_minutes - 1)
    (hvar : listPopVar (gather_recent_momentum cfg momentum_history c t) = 0) :
    (is_extreme_momentum cfg momentum_history c t ↔
      c > listMean (gather_recent_momentum cfg momentum_history c t) + 1/100 ∨
      c < listMean (gather_recent_momentum cfg momentum_history c t) - 1/100) ∧
    (∀ v : ℚ, gather_recent_momentum cfg momentum_history c t =
        List.replicate (gather_recent_momentum cfg momentum_history c t).length v →
      listPopVar (gather_recent_momentum cfg momentum_history c t) = 0 ∧
      listMean (gather_recent_momentum cfg momentum_history c t) = v) := by
  have hstd : np_std (gather_recent_momentum cfg momentum_history c t) = 0 := by
    rw [np_std, hvar]
    simp
  constructor
  · rw [is_extreme_momentum, if_neg hlen]
    simp only [extreme_high_threshold, extreme_low_threshold, hstd, gt_iff_lt,
      lt_self_iff_false, if_false]
    have h100 : ((1:ℝ)/100) = ((1/100 : ℚ) : ℝ) := by norm_num
    have hiff1 : ((listMean (gather_recent_momentum cfg momentum_history c t) : ℝ) + 1/100
        < (c:ℝ)) ↔ listMean (gather_recent_momentum cfg momentum_history c t) + 1/100 < c := by
      rw [h100, ← Rat.cast_add, Rat.cast_lt]
    have hiff2 : ((c:ℝ) < (listMean (gather_recent_momentum cfg momentum_history c t) : ℝ)
        - 1/100) ↔ c < listMean (gather_recent_momentum cfg momentum_history c t) - 1/100 := by
      rw [h100, ← Rat.cast_sub, Rat.cast_lt]
    rw [hiff1, hiff2]
  · intro v hv
    have hlen0 : (gather_recent_momentum cfg momentum_history c t).length ≠ 0 := by
      simp [gather_recent_momentum]
    refine ⟨hvar, ?_⟩
    have hne : ((gather_recent_momentum cfg momentum_history c t).length : ℚ) ≠ 0 := by
      exact_mod_cast hlen0
    rw [listMean, hv, List.sum_replicate, List.length_replicate, nsmul_eq_mul,
      div_eq_iff hne]
    ring

/-- Witness for C6: a flat momentum series (history value 5, candidate 5)
under a 1-minute-lookback configuration; the gathered set has zero variance
and the fallback band applies. -/
theorem is_extreme_momentum_zero_std_witness :
    listPopVar (gather_recent_momentum
      { price_movement_threshold := 1/100, price_resolution_minutes := 1,
        momentum_lookback_window_minutes := 1, momentum_std_threshold := 1,
        order_size_factor := 65, max_order_size_multiplier := 6,
        maker_fee_rate := 8/10000, taker_fee_rate := 1/1000,
        price_validation_threshold := 6/5, price_adjustment_offset := 1/1000 }
      [(0, 5)] 5 0) = 0 ∧
    (is_extreme_momentum
      { price_movement_threshold := 1/100, price_resolution_minutes := 1,
        momentum_lookback_window_minutes := 1, momentum_std_threshold := 1,
        order_size_factor := 65, max_order_size_multiplier := 6,
        maker_fee_rate := 8/10000, taker_fee_rate := 1/1000,
        price_validation_threshold := 6/5, price_adjustment_offset := 1/1000 }
      [(0, 5)] 5 0 ↔
      (5 : ℚ) > listMean (gather_recent_momentum
        { price_movement_threshold := 1/100, price_resolution_minutes := 1,
          momentum_lookback_window_minutes := 1, momentum_std_threshold := 1,
          order_size_factor := 65, max_order_size_multiplier := 6,
          maker_fee_rate := 8/10000, taker_fee_rate := 1/1000,
          price_validation_threshold := 6/5, price_adjustment_offset := 1/1000 }
        [(0, 5)] 5 0) + 1/100 ∨
      (5 : ℚ) < listMean (gather_recent_momentum
        { price_movement_threshold := 1/100, price_resolution_minutes := 1,
          momentum_lookback_window_minutes := 1, momentum_std_threshold := 1,
          order_size_factor := 65, max_order_size_multiplier := 6,
          maker_fee_rate := 8/10000, taker_fee_rate := 1/1000,
          price_validation_threshold := 6/5, price_adjustment_offset := 1/1000 }
        [(0, 5)] 5 0) - 1/100) :=
  ⟨by norm_num [gather_recent_momentum, TradingConfig.momentum_history_window_minutes,
      listPopVar, listMean],
   (is_extreme_momentum_zero_std
     { price_movement_threshold := 1/100, price_resolution_minutes := 1,
       momentum_lookback_window_minutes := 1, momentum_std_threshold := 1,
       order_size_factor := 65, max_order_size_multiplier := 6,
       maker_fee_rate := 8/10000, taker_fee_rate := 1/1000,
       price_validation_threshold := 6/5, price_adjustment_offset := 1/1000 }
     [(0, 5)] 5 0
     (by norm_num [gather_recent_momentum, TradingConfig.momentum_history_window_minutes])
     (by norm_num [gather_recent_momentum, TradingConfig.momentum_history_window_minutes,
        listPopVar, listMean])).1⟩

/-- C7: momentum is `0` when the price history is empty, when no point falls
in the half-open window `[t - lookback, t)`, or when the elapsed time from the
baseline is zero; otherwise it is `((price - p0)/p0·100)/(t - t0)` for the
first in-window point `(t0, p0)`, which under chronologically ordered history
is the earliest in-window point. -/
theorem calculate_current_momentum_spec
    (cfg : TradingConfig) (price_history : List (ℚ × ℚ)) (current_price t : ℚ) :
    (price_history = [] →
      calculate_current_momentum cfg price_history current_price t = 0) ∧
    (recent_price_data cfg price_history t = [] →
      calculate_current_momentum cfg price_history current_price t = 0) ∧
    (∀ t0 p0 rest, recent_price_data cfg price_history t = (t0, p0) :: rest →
      (t - t0 = 0 → calculate_current_momentum cfg price_history current_price t = 0) ∧
      (0 < t - t0 →
        calculate_current_momentum cfg price_history current_price t =
          ((current_price - p0) / p0 * 100) / (t - t0)) ∧
      (List.Pairwise (fun a b : ℚ × ℚ => a.1 ≤ b.1) price_history →
        ∀ q ∈ recent_price_data cfg price_history t, t0 ≤ q.1)) := by
  refine ⟨?_, ?_, ?_⟩
  · intro h
    simp [calculate_current_momentum, h]
  · intro h
    rcases hph : price_history with _ | _
    · simp [calculate_current_momentum]
    · rw [← hph]
      rw [calculate_current_momentum, if_neg (by simp [hph]), h]
  · intro t0 p0 rest hrec
    refine ⟨?_, ?_, ?_⟩
    · intro hzero
      have hne : price_history ≠ [] := by
        intro h
        rw [recent_price_data, h] at hrec
        simp at hrec
      rw [calculate_current_momentum, if_neg hne, hrec]
      simp [hzero]
    · intro hpos
      have hne : price_history ≠ [] := by
        intro h
        rw [recent_price_data, h] at hrec
        simp at hrec
      rw [calculate_current_momentum, if_neg hne, hrec]
      simp [hpos]
    · intro hsorted q hq
      have hsub : List.Pairwise (fun a b : ℚ × ℚ => a.1 ≤ b.1)
          (recent_price_data cfg price_history t) :=
        hsorted.sublist (List.filter_sublist price_history)
      rw [hrec] at hsub hq
      rcases List.mem_cons.1 hq with h | h
      · rw [h]
      · exact (List.pairwise_cons.1 hsub).1 q h

/-- Witness for C7: history `[(0, 100)]`, price `101` at `t = 10` with the
default 30-minute lookback gives momentum `0.1 %/min` from the earliest (only)
in-window point. -/
theorem calculate_current_momentum_spec_witness :
    recent_price_data DEFAULT_TRADING_CONFIG [(0, 100)] 10 = [(0, 100)] ∧
    (0 : ℚ) < 10 - 0 ∧
    calculate_current_momentum DEFAULT_TRADING_CONFIG [(0, 100)] 101 10 =
      ((101 - 100) / 100 * 100) / (10 - 0) :=
  ⟨by norm_num [recent_price_data, DEFAULT_TRADING_CONFIG],
   by norm_num,
   ((calculate_current_momentum_spec DEFAULT_TRADING_CONFIG [(0, 100)] 101 10).2.2
     0 100 [] (by norm_num [recent_price_data, DEFAULT_TRADING_CONFIG])).2.1
     (by norm_num)⟩

/-- C8 counterexample: a wallet constructed with the MAKER order type and
distinct maker/taker rates.  Its active commission rate is the taker rate, not
the maker rate the claim prescribes, and a buy of size 1 at price 100 with
100.08 USDT is rejected even though under the maker rate its total cost
(100.08) is within balance. -/
theorem wallet_commission_rate_ignores_order_type_cx :
    (WalletManager.init 0 (2502/25) (1/1250) (1/1000) OrderType.MAKER).order_type =
      OrderType.MAKER ∧
    (WalletManager.init 0 (2502/25) (1/1250) (1/1000) OrderType.MAKER).commission_rate =
      (WalletManager.init 0 (2502/25) (1/1250) (1/1000) OrderType.MAKER).commission_rate_taker ∧
    (WalletManager.init 0 (2502/25) (1/1250) (1/1000) OrderType.MAKER).commission_rate ≠
      (WalletManager.init 0 (2502/25) (1/1250) (1/1000) OrderType.MAKER).commission_rate_maker ∧
    (WalletManager.init 0 (2502/25) (1/1250) (1/1000) OrderType.MAKER).check_buy_order
      100 1 = false ∧
    ¬ (WalletManager.init 0 (2502/25) (1/1250) (1/1000) OrderType.MAKER).current_usdt <
      1 * 100 * (1 + (WalletManager.init 0 (2502/25) (1/1250) (1/1000) OrderType.MAKER).commission_rate_maker) := by
  refine ⟨rfl, rfl, ?_, ?_, ?_⟩ <;>
    norm_num [WalletManager.init, WalletManager.check_buy_order]

/-- C8 amended: the active commission rate of the wallet is always the taker rate
fixed at construction, whatever order type it is constructed with; both
affordability checks use exactly that rate, and recording an executed order
never changes it. -/
theorem wallet_commission_rate_is_taker
    (initial_btc initial_usdt maker_rate taker_rate : ℚ) (ot : OrderType)
    (order_id : Int) (account_btc account_usdt price size_btc : ℚ) :
    (WalletManager.init initial_btc initial_usdt maker_rate taker_rate ot).commission_rate =
      taker_rate ∧
    ((WalletManager.init initial_btc initial_usdt maker_rate taker_rate ot).update_executed_order
      order_id account_btc account_usdt).commission_rate = taker_rate ∧
    (WalletManager.init initial_btc initial_usdt maker_rate taker_rate ot).check_buy_order
      price size_btc =
      !decide (initial_usdt < size_btc * price * (1 + taker_rate)) ∧
    (WalletManager.init initial_btc initial_usdt maker_rate taker_rate ot).check_sell_order
      size_btc =
      !decide (initial_btc < size_btc * (1 + taker_rate)) := by
  refine ⟨rfl, rfl, rfl, rfl⟩

/-- C9: reconciling a stored order id of `0` yields a CANCELED result with
executed id, price and size all `0`, without touching the bot state; that side
therefore counts as executed, so the cycle closes all orders and places a
fresh pair exactly when momentum is not extreme — whichever side the zero id
is on. -/
theorem zero_order_id_counts_as_executed
    (s : BotState) (side : String) (gw : GatewayOrderStatus)
    (details : Option (String × String × String))
    (other_result : OrderExecutionResult) (is_extreme : Bool) :
    (bot_check_order_status s 0 side gw details).1 = s ∧
    (bot_check_order_status s 0 side gw details).2 =
      { order_status := OrderStatus.CANCELED, executed_order_id := 0,
        executed_price := 0, executed_size := 0, executed_side := "",
        fill_time_ms := sentinel_fill_time } ∧
    order_executed (bot_check_order_status s 0 side gw details).2 = true ∧
    trade_decision (bot_check_order_status s 0 side gw details).2 other_result
      is_extreme =
      { closed_orders := true, placed_new_pair := !is_extreme } ∧
    trade_decision other_result (bot_check_order_status s 0 side gw details).2
      is_extreme =
      { closed_orders := true, placed_new_pair := !is_extreme } := by
  have h0 : (0 : Int) ≠ NOT_ENOUGH_BALANCE := by decide
  refine ⟨?_, ?_, ?_, ?_, ?_⟩ <;>
    simp [bot_check_order_status, h0, order_executed, trade_decision]

/-- A reconciliation step leaves the five durable fields unchanged and either
saves nothing or saves exactly the record of the state it was entered with. -/
theorem bot_check_order_status_state_shape (s : BotState) (oid : Int) (side : String)
    (gw : GatewayOrderStatus) (d : Option (String × String × String)) :
    runtime_params_of (bot_check_order_status s oid side gw d).1 = runtime_params_of s ∧
    ((bot_check_order_status s oid side gw d).1.saved_params = s.saved_params ∨
     (bot_check_order_status s oid side gw d).1.saved_params =
       save_runtime_params (runtime_params_of s) :: s.saved_params) := by
  rw [bot_check_order_status.eq_def]
  split_ifs <;> simp [runtime_params_of]
  split_ifs <;> simp [runtime_params_of]

/-- C10: every runtime-parameter record saved while reconciling the two sides
of a cycle equals the record of the state as it was before the fills of the
cycle were applied (the size-adjustment and `last_price` mutations happen only in
the later fill-application phase), and reconciliation leaves the five durable
fields themselves unchanged. -/
theorem reconcile_saves_prefill_params
    (s : BotState) (gwB gwS : GatewayOrderStatus)
    (dB dS : Option (String × String × String)) :
    runtime_params_of (reconcile_orders s gwB gwS dB dS).1 = runtime_params_of s ∧
    ∃ n : ℕ, (reconcile_orders s gwB gwS dB dS).1.saved_params =
      List.replicate n (save_runtime_params (runtime_params_of s)) ++ s.saved_params := by
  obtain ⟨h1p, h1s⟩ := bot_check_order_status_state_shape s s.buy_order_id "buy" gwB dB
  obtain ⟨h2p, h2s⟩ := bot_check_order_status_state_shape
    (bot_check_order_status s s.buy_order_id "buy" gwB dB).1
    (bot_check_order_status s s.buy_order_id "buy" gwB dB).1.sell_order_id "sell" gwS dS
  have hre : (reconcile_orders s gwB gwS dB dS).1 =
      (bot_check_order_status (bot_check_order_status s s.buy_order_id "buy" gwB dB).1
        (bot_check_order_status s s.buy_order_id "buy" gwB dB).1.sell_order_id
        "sell" gwS dS).1 := rfl
  rw [hre]
  have hsv : save_runtime_params (runtime_params_of
      (bot_check_order_status s s.buy_order_id "buy" gwB dB).1) =
      save_runtime_params (runtime_params_of s) := by rw [h1p]
  refine ⟨by rw [h2p, h1p], ?_⟩
  rcases h2s with h2 | h2 <;> rcases h1s with h1 | h1
  · exact ⟨0, by rw [h2, h1]; simp⟩
  · exact ⟨1, by rw [h2, h1]; simp⟩
  · exact ⟨1, by rw [h2, hsv, h1]; simp⟩
  · exact ⟨2, by rw [h2, hsv, h1]; simp [List.replicate_succ]⟩
